import Mathlib

/-!
Verification of the example HTTP client scripts of the repository
(`memory_bank/` and `docs_external_api/`).

The scripts are Python programs that build JSON request payloads and drive
loops over the responses of an external server.  The shallow embedding below
translates the payload construction and the loops directly:

* a JSON value is the inductive `Json`; a Python dict used as a request body
  is an insertion-ordered association list (`Payload`);
* Python truthiness tests (`if message:` on an optional string, `if images:`
  on an optional list, `if flag:` on a bool) become the `truthyStr`,
  `truthyList` and plain `Bool` tests that the `addTruthyStr` / `addTruthyList`
  / `addTruthyBool` helpers perform, mirroring the conditional
  `payload["k"] = v` statements;
* each client function is modelled by the `Request` it issues
  (method, path, body) and, where the Python returns `response.json()`
  unchanged, by an identity transform on the decoded response;
* the server is an oracle `Nat → String` giving the status string carried by
  the k-th status fetch (0-indexed); the bounded `while attempts < 120` loop
  of `test_task_creation.py` is embedded structurally on the number of
  remaining attempts, and the unbounded `while True` loops of
  `test_task_approval.py` are embedded with explicit fuel, `none` meaning the
  loop has not exited within the given number of iterations.
-/

/-- A JSON value, as exchanged with the server. -/
inductive Json where
  | str : String → Json
  | bool : Bool → Json
  | num : Int → Json
  | arr : List Json → Json
  | obj : List (String × Json) → Json

/-- A request body: a Python dict in insertion order. -/
abbrev Payload := List (String × Json)

/-- HTTP method of a request. -/
inductive Method where
  | get : Method
  | post : Method
deriving DecidableEq

/-- An HTTP request issued by a client function: method, path relative to the
base URL, and JSON body (empty for GET requests). -/
structure Request where
  method : Method
  path : String
  body : Payload

/-- Python truthiness of an optional string argument (default `None` ≈ `none`):
`None` and the empty string are falsy. -/
def truthyStr : Option String → Bool
  | none => false
  | some s => !s.isEmpty

/-- Python truthiness of an optional list argument: `None` and `[]` are falsy. -/
def truthyList : Option (List Json) → Bool
  | none => false
  | some l => !l.isEmpty

/-- Embedding of `if v: payload["k"] = v` for an optional string argument. -/
def addTruthyStr (p : Payload) (k : String) (v : Option String) : Payload :=
  if truthyStr v then p ++ [(k, Json.str (v.getD ""))] else p

/-- Embedding of `if v: payload["k"] = v` for an optional list argument. -/
def addTruthyList (p : Payload) (k : String) (v : Option (List Json)) : Payload :=
  if truthyList v then p ++ [(k, Json.arr (v.getD []))] else p

/-- Embedding of `if b: payload["k"] = b` for a boolean argument. -/
def addTruthyBool (p : Payload) (k : String) (b : Bool) : Payload :=
  if b then p ++ [(k, Json.bool b)] else p

/-- The keys of a payload, in insertion order. -/
def payloadKeys (p : Payload) : List String := p.map Prod.fst

/-! ## Client request builders (from the source) -/

/-- Function `create_task` of `memory_bank/examples/python/basic_task.py` (the variant
in `test_task_approval.py` is the same without the `wait_for_completion`
parameter): builds the payload by truthiness-conditional insertion of
`message`, `mode`, `profile`, `wait_for_completion`, then POSTs `/tasks`. -/
def create_task (message mode profile : Option String)
    (wait_for_completion : Bool) : Request :=
  let payload : Payload := []
  let payload := addTruthyStr payload "message" message
  let payload := addTruthyStr payload "mode" mode
  let payload := addTruthyStr payload "profile" profile
  let payload := addTruthyBool payload "wait_for_completion" wait_for_completion
  { method := Method.post, path := "/tasks", body := payload }

/-- Function `create_task` returns `response.json()` unchanged. -/
def create_task_result (resp : Json) : Json := resp

/-- Function `send_message` of `basic_task.py`: body always holds `message`, `images`
only when truthy; POSTs `/messages`. -/
def send_message (message : String) (images : Option (List Json)) : Request :=
  let payload : Payload := [("message", Json.str message)]
  let payload := addTruthyList payload "images" images
  { method := Method.post, path := "/messages", body := payload }

/-- Function `start_new_task` of `memory_bank/api_example.py`: `message` inserted only
when truthy; POSTs `/api/tasks`. -/
def start_new_task (message : Option String) : Request :=
  { method := Method.post, path := "/api/tasks",
    body := addTruthyStr [] "message" message }

/-- Function `approve_task` of `test_task_approval.py`: the URL is chosen by Python
truthiness of `task_id` (`if task_id:`), and the body is always
`{"response": "approve"}`. -/
def approve_task (task_id : Option String) : Request :=
  if truthyStr task_id then
    { method := Method.post, path := "/tasks/" ++ task_id.getD "" ++ "/respond",
      body := [("response", Json.str "approve")] }
  else
    { method := Method.post, path := "/tasks/respond",
      body := [("response", Json.str "approve")] }

/-- Function `approve_task` returns `response.json()` unchanged. -/
def approve_task_result (resp : Json) : Json := resp

/-! ## The bounded polling loop of `test_task_creation.py` -/

/-- The list of terminal states tested on line 79 of `test_task_creation.py`:
`if status["status"] in ["completed", "needs_input", "needs_approval", "error"]`. -/
def terminalStates : List String :=
  ["completed", "needs_input", "needs_approval", "error"]

/-- Outcome of the polling loop: how many status fetches it performed, how
many one-second sleeps, and whether it fell out of the `while` by exhausting
the bound (Python's `while`…`else` branch, which prints the timeout). -/
structure PollResult where
  fetches : Nat
  sleeps : Nat
  timedOut : Bool
deriving DecidableEq

/-- One step of the `while attempts < 120` loop, structurally on the number
of remaining attempts (`remaining = 120 - attempts`); `attempts` is the
absolute fetch index handed to the server oracle, as in the source where the
fetch of the iteration with counter `attempts` is the `attempts`-th fetch.
Each iteration fetches once; on a terminal status it breaks (no sleep),
otherwise it sleeps one second and increments the counter. -/
def pollFrom (server : Nat → String) : Nat → Nat → PollResult
  | 0, _ => { fetches := 0, sleeps := 0, timedOut := true }
  | remaining + 1, attempts =>
    if terminalStates.contains (server attempts) then
      { fetches := 1, sleeps := 0, timedOut := false }
    else
      let r := pollFrom server remaining (attempts + 1)
      { fetches := r.fetches + 1, sleeps := r.sleeps + 1, timedOut := r.timedOut }

/-- The whole polling loop of `test_task_creation.py`, lines 69–88:
`attempts = 0; while attempts < 120: …`. -/
def poll (server : Nat → String) : PollResult := pollFrom server 120 0

/-- After the loop, `main` prints the timeout message exactly when the
`while`…`else` branch ran, and always prints the final line. -/
structure CreationReport where
  statusFetches : Nat
  oneSecondSleeps : Nat
  timeoutReported : Bool
  reportedTestComplete : Bool
deriving DecidableEq

/-- The tail of `main` in `test_task_creation.py` (lines 69–92) for a run
whose initial status was `in_progress`: run the loop, report a timeout iff it
exhausted its bound, and reach the unconditional final print.  The model
covers runs where every response carries a status string (the oracle), under
which no statement of this region raises. -/
def creationMainReport (server : Nat → String) : CreationReport :=
  let r := poll server
  { statusFetches := r.fetches
    oneSecondSleeps := r.sleeps
    timeoutReported := r.timedOut
    reportedTestComplete := true }

/-! ## The unbounded status loops of `test_task_approval.py` -/

/-- One `while True` loop of `test_task_approval.py` (lines 63–73 and 86–96):
fetch status; on `needs_approval` approve and continue; break only on
`completed` or `error`; otherwise continue.  `fuel` bounds how many
iterations we unfold; `some n` means the loop broke after `n` status fetches,
`none` that it had not exited within `fuel` iterations.  `k` is the absolute
fetch index. -/
def approvalLoopFrom (server : Nat → String) : Nat → Nat → Option Nat
  | 0, _ => none
  | fuel + 1, k =>
    if server k = "needs_approval" then
      approvalLoopFrom server fuel (k + 1)
    else if ["completed", "error"].contains (server k) then
      some (k + 1)
    else
      approvalLoopFrom server fuel (k + 1)

/-! ## Helper lemmas for the loops -/

theorem pollFrom_fetches_le (server : Nat → String) (remaining attempts : Nat) :
    (pollFrom server remaining attempts).fetches ≤ remaining := by
  induction remaining generalizing attempts with
  | zero => simp [pollFrom]
  | succ n ih =>
    simp only [pollFrom]
    split
    · simp
    · exact Nat.succ_le_succ (ih (attempts + 1))

theorem pollFrom_exact (server : Nat → String) (remaining attempts N : Nat)
    (ha : attempts ≤ N) (hr : N - attempts < remaining)
    (hmid : ∀ k, attempts ≤ k → k < N → terminalStates.contains (server k) = false)
    (hterm : terminalStates.contains (server N) = true) :
    pollFrom server remaining attempts =
      { fetches := N - attempts + 1, sleeps := N - attempts, timedOut := false } := by
  induction remaining generalizing attempts with
  | zero => omega
  | succ n ih =>
    simp only [pollFrom]
    by_cases hA : attempts = N
    · subst hA
      rw [hterm]
      simp
    · have hlt : attempts < N := Nat.lt_of_le_of_ne ha hA
      rw [hmid attempts (Nat.le_refl _) hlt]
      simp only [Bool.false_eq_true, if_false]
      rw [ih (attempts + 1) hlt (by omega)
        (fun k hk1 hk2 => hmid k (by omega) hk2)]
      have h1 : N - (attempts + 1) + 1 = N - attempts := by omega
      simp [h1]

theorem pollFrom_timeout (server : Nat → String) (remaining attempts : Nat)
    (hmid : ∀ k, attempts ≤ k → k < attempts + remaining →
      terminalStates.contains (server k) = false) :
    pollFrom server remaining attempts =
      { fetches := remaining, sleeps := remaining, timedOut := true } := by
  induction remaining generalizing attempts with
  | zero => simp [pollFrom]
  | succ n ih =>
    simp only [pollFrom]
    rw [hmid attempts (Nat.le_refl _) (by omega)]
    simp only [Bool.false_eq_true, if_false]
    rw [ih (attempts + 1) (fun k hk1 hk2 => hmid k (by omega) (by omega))]

theorem approvalLoopFrom_const_in_progress (fuel k : Nat) :
    approvalLoopFrom (fun _ => "in_progress") fuel k = none := by
  induction fuel generalizing k with
  | zero => rfl
  | succ n ih =>
    simp only [approvalLoopFrom]
    norm_num
    exact ih (k + 1)

/-! ## Connection test and `main` of `memory_bank/api_example.py` -/

/-- How the `GET /api/instructions` probe can end, seen from the `try` block
of `test_connection`: the request completes (whatever the HTTP status code:
the script never checks it), raises `requests.exceptions.ConnectionError`, or
raises some other exception. -/
inductive ConnOutcome where
  | success : ConnOutcome
  | connError : ConnOutcome
  | otherError : String → ConnOutcome
deriving DecidableEq

/-- What `test_connection` does: its return value and whether it printed the
three actionable configuration hints of the `ConnectionError` branch. -/
structure ConnTestResult where
  ok : Bool
  printedHints : Bool
deriving DecidableEq

/-- Function `test_connection` of `api_example.py`, lines 9–23: `True` when the GET
completed; on `ConnectionError`, print the hints and return `False`; on any
other exception, print it and return `False` (no hints). -/
def test_connection : ConnOutcome → ConnTestResult
  | ConnOutcome.success => { ok := true, printedHints := false }
  | ConnOutcome.connError => { ok := false, printedHints := true }
  | ConnOutcome.otherError _ => { ok := false, printedHints := false }

/-- Observable outcome of `main` in `api_example.py`: the exit status passed
to `sys.exit` (`none` for a normal fall-through return), and whether the task
creation and message-sending requests were attempted. -/
structure ApiExampleRun where
  exitCode : Option Nat
  startTaskAttempted : Bool
  messageSent : Bool
deriving DecidableEq

/-- Function `main` of `api_example.py`, lines 55–63: if `test_connection` fails,
`sys.exit(1)` before any task request; otherwise start the task (the script
never calls `send_message` in `main` at all). -/
def api_example_main (conn : ConnOutcome) : ApiExampleRun :=
  if (test_connection conn).ok then
    { exitCode := none, startTaskAttempted := true, messageSent := false }
  else
    { exitCode := some 1, startTaskAttempted := false, messageSent := false }

/-! ## Auto-approve settings (`docs_external_api/examples/python/auto_approve.py`) -/

/-- The auto-approve flag record held by the server (spec §3: master switch
plus per-category flags). -/
structure AutoApproveSettings where
  autoApprovalEnabled : Bool
  alwaysAllowReadOnly : Bool
  alwaysAllowWrite : Bool
  alwaysAllowExecute : Bool
  alwaysAllowBrowser : Bool
  alwaysAllowMcp : Bool
  alwaysApproveResubmit : Bool
deriving DecidableEq

/-- A partial flag record submitted by the client: `none` means the flag is
not named in the submitted record. -/
structure AutoApprovePatch where
  autoApprovalEnabled : Option Bool
  alwaysAllowReadOnly : Option Bool
  alwaysAllowWrite : Option Bool
  alwaysAllowExecute : Option Bool
  alwaysAllowBrowser : Option Bool
  alwaysAllowMcp : Option Bool
  alwaysApproveResubmit : Option Bool
deriving DecidableEq

/-- Modelled from the spec: the mock server's handling of
`POST /auto-approve` is not in `src/` (no server code is); per spec §4.3 and
§8 it "merges/applies" a partial or full flag record, leaving unspecified
flags unchanged.  Each flag named in the patch replaces the stored one;
every other flag keeps its stored value. -/
def mergeAutoApprove (cur : AutoApproveSettings) (patch : AutoApprovePatch) :
    AutoApproveSettings :=
  { autoApprovalEnabled := patch.autoApprovalEnabled.getD cur.autoApprovalEnabled
    alwaysAllowReadOnly := patch.alwaysAllowReadOnly.getD cur.alwaysAllowReadOnly
    alwaysAllowWrite := patch.alwaysAllowWrite.getD cur.alwaysAllowWrite
    alwaysAllowExecute := patch.alwaysAllowExecute.getD cur.alwaysAllowExecute
    alwaysAllowBrowser := patch.alwaysAllowBrowser.getD cur.alwaysAllowBrowser
    alwaysAllowMcp := patch.alwaysAllowMcp.getD cur.alwaysAllowMcp
    alwaysApproveResubmit := patch.alwaysApproveResubmit.getD cur.alwaysApproveResubmit }

/-- Function `update_auto_approve_settings` of `auto_approve.py`, lines 22–26: POSTs
the given record to `/auto-approve` exactly as given. -/
def update_auto_approve_settings (settings : Payload) : Request :=
  { method := Method.post, path := "/auto-approve", body := settings }

/-- Function `update_auto_approve_settings` returns `response.json()` unchanged. -/
def update_auto_approve_settings_result (resp : Json) : Json := resp

/-! ## MCP management (`docs_external_api/examples/python/mcp_management.py`) -/

/-- Function `set_mcp_status`, lines 28–33: POST `/mcps/{id}/status` with body
`{"enabled": enabled}`. -/
def set_mcp_status (mcp_id : String) (enabled : Bool) : Request :=
  { method := Method.post, path := "/mcps/" ++ mcp_id ++ "/status",
    body := [("enabled", Json.bool enabled)] }

/-- Function `get_mcp_details`, lines 22–26: GET `/mcps/{id}`. -/
def get_mcp_details (mcp_id : String) : Request :=
  { method := Method.get, path := "/mcps/" ++ mcp_id, body := [] }

/-- Modelled from the spec: the mock server's MCP state is not in `src/`.
Per spec §4.4 and §3, each MCP id has an enabled/disabled status; we model
the state as the enabled flag per id. -/
def serverSetMcpStatus (st : String → Bool) (mcp_id : String) (enabled : Bool) :
    String → Bool :=
  fun j => if j = mcp_id then enabled else st j

/-- Modelled from the spec: the enabled flag a details fetch for `mcp_id`
reports in the given server state. -/
def serverMcpEnabled (st : String → Bool) (mcp_id : String) : Bool := st mcp_id

/-! ## Profile selection (`docs_external_api/examples/python/mode_and_profile.py`) -/

/-- A profile as listed by `GET /profiles`: the example reads only its name. -/
structure Profile where
  name : String
deriving DecidableEq

/-- The selection expression of `mode_and_profile.py`, lines 94–97:
`next(p["name"] for p in profiles if p["name"] != current_profile["name"])`.
`next` on an exhausted generator with no default raises `StopIteration`,
which we model as `none`; `some nm` is the name the generator yields first. -/
def selectNewProfile (profiles : List Profile) (currentName : String) :
    Option String :=
  (profiles.find? (fun p => p.name != currentName)).map Profile.name

/-- The spec-side reading of the same expression: the name of the first
profile in list order whose name differs from the current one, if any. -/
def firstDifferentName (profiles : List Profile) (currentName : String) :
    Option String :=
  match profiles with
  | [] => none
  | p :: rest =>
    if p.name = currentName then firstDifferentName rest currentName
    else some p.name

/-- Function `switch_profile`, lines 48–53: POST `/profiles/switch` with
`{"name": profile_name}`. -/
def switch_profile (profile_name : String) : Request :=
  { method := Method.post, path := "/profiles/switch",
    body := [("name", Json.str profile_name)] }

theorem selectNewProfile_eq_firstDifferentName (profiles : List Profile)
    (currentName : String) :
    selectNewProfile profiles currentName = firstDifferentName profiles currentName := by
  induction profiles with
  | nil => rfl
  | cons p rest ih =>
    simp only [firstDifferentName]
    by_cases h : p.name = currentName
    · rw [if_pos h, ← ih]
      simp only [selectNewProfile]
      rw [List.find?_cons_of_neg]
      simp [h]
    · rw [if_neg h]
      simp only [selectNewProfile]
      rw [List.find?_cons_of_pos]
      · rfl
      · simp [h]

theorem addTruthyStr_eq (p : Payload) (k : String) (v : Option String) :
    addTruthyStr p k v =
      p ++ (match v with
        | some s => if s = "" then [] else [(k, Json.str s)]
        | none => []) := by
  rcases v with _ | s
  · simp [addTruthyStr, truthyStr]
  · by_cases h : s = ""
    · subst h
      simp only [addTruthyStr, truthyStr]
      rw [if_neg (by decide)]
      simp
    · have hne : s.isEmpty = false := by
        rw [Bool.eq_false_iff]
        intro hc
        exact h ((String.isEmpty_iff s).mp hc)
      simp only [addTruthyStr, truthyStr, hne, Bool.not_false, if_true, if_neg h,
        Option.getD_some]

theorem addTruthyBool_eq (p : Payload) (k : String) (b : Bool) :
    addTruthyBool p k b =
      p ++ (if b then [(k, Json.bool true)] else []) := by
  cases b <;> simp [addTruthyBool]

theorem addTruthyList_eq (p : Payload) (k : String) (v : Option (List Json)) :
    addTruthyList p k v =
      p ++ (match v with
        | some [] => []
        | some (x :: xs) => [(k, Json.arr (x :: xs))]
        | none => []) := by
  rcases v with _ | ⟨_ | ⟨x, xs⟩⟩ <;> simp [addTruthyList, truthyList]

theorem payloadKeys_append (p q : Payload) :
    payloadKeys (p ++ q) = payloadKeys p ++ payloadKeys q :=
  List.map_append _ _ _

theorem mem_payloadKeys_addTruthyStr (p : Payload) (k x : String)
    (v : Option String) (hx : x ∈ payloadKeys (addTruthyStr p k v)) :
    x ∈ payloadKeys p ∨ x = k := by
  unfold addTruthyStr at hx
  split at hx
  · rw [payloadKeys_append] at hx
    rcases List.mem_append.mp hx with h | h
    · exact Or.inl h
    · simp [payloadKeys] at h
      exact Or.inr h
  · exact Or.inl hx

/-! ## Claim theorems -/

/-- C1: when the server answers the first N status fetches with
`in_progress` and the (N+1)-th with `completed` (0 ≤ N ≤ 119), the polling
loop of `test_task_creation.py` performs exactly N+1 status fetches, sleeps
one second exactly N times (between consecutive checks, never after the
terminal one), does not time out, and never performs more than 120 status
checks. -/
theorem creation_poll_exact_count (server : Nat → String) (N : Nat)
    (hN : N ≤ 119)
    (hpre : ∀ k, k < N → server k = "in_progress")
    (hdone : server N = "completed") :
    (poll server).fetches = N + 1 ∧ (poll server).sleeps = N ∧
      (poll server).timedOut = false ∧ (poll server).fetches ≤ 120 := by
  have hterm : terminalStates.contains (server N) = true := by rw [hdone]; rfl
  have hmid : ∀ k, 0 ≤ k → k < N → terminalStates.contains (server k) = false := by
    intro k _ hk
    rw [hpre k hk]
    rfl
  have h := pollFrom_exact server 120 0 N (Nat.zero_le _) (by omega) hmid hterm
  unfold poll
  rw [h]
  exact ⟨by simp, by simp, rfl, by simp; omega⟩

/-- A server that reports `in_progress` twice, then `completed`. -/
def threeStepServer : Nat → String :=
  fun k => if k < 2 then "in_progress" else "completed"

theorem creation_poll_exact_count_witness :
    (poll threeStepServer).fetches = 2 + 1 ∧ (poll threeStepServer).sleeps = 2 ∧
      (poll threeStepServer).timedOut = false ∧ (poll threeStepServer).fetches ≤ 120 :=
  creation_poll_exact_count threeStepServer 2 (by decide)
    (fun k hk => by
      interval_cases k <;> rfl)
    rfl

/-- C2 counterexample: the claim says every status-fetching loop of the
example clients is bounded (by the observed 120 attempts), but the
`while True` loop of `test_task_approval.py` has no attempt bound: against a
server that always reports `in_progress` it has still not exited after 121
iterations, i.e. after more than 120 status fetches. -/
theorem approval_loop_exceeds_bound :
    approvalLoopFrom (fun _ => "in_progress") 121 0 = none :=
  approvalLoopFrom_const_in_progress 121 0

/-- C2 amended: only the polling loop of `test_task_creation.py` is
bounded — it performs at most 120 status fetches against every server — while
the `while True` status loops of `test_task_approval.py` are unbounded: they
exit only when a fetch returns `completed` or `error`, so against a server
that always reports `in_progress` they have not exited after any number of
iterations. -/
theorem creation_loop_bounded_approval_loop_not (server : Nat → String)
    (fuel k : Nat) :
    (poll server).fetches ≤ 120 ∧
      approvalLoopFrom (fun _ => "in_progress") fuel k = none :=
  ⟨pollFrom_fetches_le server 120 0, approvalLoopFrom_const_in_progress fuel k⟩

/-- C3: when no status fetch ever returns a terminal status, the polling
loop of `test_task_creation.py` exhausts its 120 attempts, the script reports
the timeout message (the `while`…`else` branch), issues no further status
fetch, and reaches the final unconditional print without raising. -/
theorem creation_poll_timeout_report (server : Nat → String)
    (h : ∀ k, terminalStates.contains (server k) = false) :
    creationMainReport server =
      { statusFetches := 120, oneSecondSleeps := 120, timeoutReported := true,
        reportedTestComplete := true } := by
  unfold creationMainReport poll
  rw [pollFrom_timeout server 120 0 (fun k _ _ => h k)]

theorem creation_poll_timeout_report_witness :
    creationMainReport (fun _ => "in_progress") =
      { statusFetches := 120, oneSecondSleeps := 120, timeoutReported := true,
        reportedTestComplete := true } :=
  creation_poll_timeout_report (fun _ => "in_progress") (fun _ => rfl)

/-- C4 counterexample: the claim says a supplied task id always routes to
`/tasks/{id}/respond`, but `approve_task` branches on Python truthiness, so
the supplied empty-string id is routed to the current-task endpoint
`/tasks/respond` rather than to `/tasks//respond`. -/
theorem approve_task_empty_id_path :
    (approve_task (some "")).path = "/tasks/respond" ∧
      (approve_task (some "")).path ≠ "/tasks//respond" := by
  constructor
  · rfl
  · decide

/-- C4 amended: the function `approve_task` always POSTs the body
`{"response": "approve"}` and returns the decoded response unchanged; a
supplied non-empty task id routes to `/tasks/{id}/respond`, while no id or a
supplied empty id (falsy in Python) routes to `/tasks/respond`. -/
theorem approve_task_request_shape (task_id : Option String) :
    (approve_task task_id).method = Method.post ∧
      (approve_task task_id).body = [("response", Json.str "approve")] ∧
      (∀ s, task_id = some s → s ≠ "" →
        (approve_task task_id).path = "/tasks/" ++ s ++ "/respond") ∧
      ((task_id = none ∨ task_id = some "") →
        (approve_task task_id).path = "/tasks/respond") ∧
      (∀ resp, approve_task_result resp = resp) := by
  refine ⟨?_, ?_, ?_, ?_, fun _ => rfl⟩
  · unfold approve_task
    split <;> rfl
  · unfold approve_task
    split <;> rfl
  · rintro s rfl hs
    have hne : s.isEmpty = false := by
      rw [Bool.eq_false_iff]
      intro hc
      exact hs ((String.isEmpty_iff s).mp hc)
    simp [approve_task, truthyStr, hne]
  · rintro (rfl | rfl) <;> rfl

theorem approve_task_request_shape_witness :
    (approve_task (some "t1")).path = "/tasks/t1/respond" :=
  (approve_task_request_shape (some "t1")).2.2.1 "t1" rfl (by decide)

/-- C5 counterexample: the claim says the body contains exactly the provided
optional fields, but providing `message=""` (falsy in Python) yields a body
without the `"message"` key at all. -/
theorem create_task_empty_message_key_dropped :
    (payloadKeys (create_task (some "") none none false).body).contains
      "message" = false := by
  rfl

/-- C5 amended: the function `create_task` issues a single POST to `/tasks` whose body
contains, in order, exactly the truthy provided optional fields — `message`,
`mode`, `profile` when a non-empty string was supplied, and
`wait_for_completion` when `True` was supplied — under those keys and no
others, and returns the decoded response unchanged. -/
theorem create_task_request_shape (message mode profile : Option String)
    (wfc : Bool) :
    (create_task message mode profile wfc).method = Method.post ∧
      (create_task message mode profile wfc).path = "/tasks" ∧
      (create_task message mode profile wfc).body =
        (match message with
          | some s => if s = "" then [] else [("message", Json.str s)]
          | none => []) ++
        (match mode with
          | some s => if s = "" then [] else [("mode", Json.str s)]
          | none => []) ++
        (match profile with
          | some s => if s = "" then [] else [("profile", Json.str s)]
          | none => []) ++
        (if wfc then [("wait_for_completion", Json.bool true)] else []) ∧
      (∀ resp, create_task_result resp = resp) := by
  refine ⟨rfl, rfl, ?_, fun _ => rfl⟩
  simp only [create_task, addTruthyStr_eq, addTruthyBool_eq, List.nil_append,
    List.append_assoc]

/-- C6: the function `test_connection` returns `True` exactly when the GET probe completed
without raising; on a connection error it prints the configuration hints and
returns `False`; and whenever it returns `False`, `main` exits with status 1
without attempting to create a task or send a message. -/
theorem connection_gate (conn : ConnOutcome) :
    ((test_connection conn).ok = true ↔ conn = ConnOutcome.success) ∧
      (conn = ConnOutcome.connError →
        (test_connection conn).printedHints = true ∧
          (test_connection conn).ok = false) ∧
      ((test_connection conn).ok = false →
        api_example_main conn =
          { exitCode := some 1, startTaskAttempted := false,
            messageSent := false }) := by
  rcases conn with _ | _ | msg <;> simp [test_connection, api_example_main]

theorem connection_gate_witness :
    (test_connection ConnOutcome.connError).printedHints = true ∧
      (test_connection ConnOutcome.connError).ok = false :=
  (connection_gate ConnOutcome.connError).2.1 rfl

/-- C7: for every partial flag record, the flags not named in it are
unchanged by the server merge, and the client both posts exactly the record
it was given and returns the server's decoded response without adding,
removing, or altering any field. -/
theorem auto_approve_merge_frame (cur : AutoApproveSettings)
    (patch : AutoApprovePatch) :
    (patch.autoApprovalEnabled = none →
        (mergeAutoApprove cur patch).autoApprovalEnabled =
          cur.autoApprovalEnabled) ∧
      (patch.alwaysAllowReadOnly = none →
        (mergeAutoApprove cur patch).alwaysAllowReadOnly =
          cur.alwaysAllowReadOnly) ∧
      (patch.alwaysAllowWrite = none →
        (mergeAutoApprove cur patch).alwaysAllowWrite = cur.alwaysAllowWrite) ∧
      (patch.alwaysAllowExecute = none →
        (mergeAutoApprove cur patch).alwaysAllowExecute =
          cur.alwaysAllowExecute) ∧
      (patch.alwaysAllowBrowser = none →
        (mergeAutoApprove cur patch).alwaysAllowBrowser =
          cur.alwaysAllowBrowser) ∧
      (patch.alwaysAllowMcp = none →
        (mergeAutoApprove cur patch).alwaysAllowMcp = cur.alwaysAllowMcp) ∧
      (patch.alwaysApproveResubmit = none →
        (mergeAutoApprove cur patch).alwaysApproveResubmit =
          cur.alwaysApproveResubmit) ∧
      (∀ s, (update_auto_approve_settings s).body = s) ∧
      (∀ resp, update_auto_approve_settings_result resp = resp) := by
  refine ⟨?_, ?_, ?_, ?_, ?_, ?_, ?_, fun _ => rfl, fun _ => rfl⟩ <;>
    · intro h
      simp [mergeAutoApprove, h]

/-- The concrete flag record of the `auto_approve.py` demo. -/
def demoSettings : AutoApproveSettings :=
  { autoApprovalEnabled := true, alwaysAllowReadOnly := true
    alwaysAllowWrite := false, alwaysAllowExecute := false
    alwaysAllowBrowser := true, alwaysAllowMcp := false
    alwaysApproveResubmit := true }

/-- A patch that names no flag at all. -/
def emptyPatch : AutoApprovePatch :=
  { autoApprovalEnabled := none, alwaysAllowReadOnly := none
    alwaysAllowWrite := none, alwaysAllowExecute := none
    alwaysAllowBrowser := none, alwaysAllowMcp := none
    alwaysApproveResubmit := none }

theorem auto_approve_merge_frame_witness :
    (mergeAutoApprove demoSettings emptyPatch).autoApprovalEnabled =
      demoSettings.autoApprovalEnabled :=
  (auto_approve_merge_frame demoSettings emptyPatch).1 rfl

/-- C8: for an MCP id whose details initially report enabled, disabling then
re-enabling it round-trips: the subsequent details fetch reports
enabled=true, matching the pre-disable state; the two client calls POST
`/mcps/{id}/status` with bodies `{"enabled": false}` and `{"enabled": true}`
and the verification is a GET of `/mcps/{id}`. -/
theorem mcp_disable_enable_roundtrip (st : String → Bool) (mcp_id : String)
    (h : serverMcpEnabled st mcp_id = true) :
    serverMcpEnabled
        (serverSetMcpStatus (serverSetMcpStatus st mcp_id false) mcp_id true)
        mcp_id = true ∧
      serverMcpEnabled
        (serverSetMcpStatus (serverSetMcpStatus st mcp_id false) mcp_id true)
        mcp_id = serverMcpEnabled st mcp_id ∧
      (set_mcp_status mcp_id false).body = [("enabled", Json.bool false)] ∧
      (set_mcp_status mcp_id true).body = [("enabled", Json.bool true)] ∧
      (get_mcp_details mcp_id).method = Method.get := by
  have h' : st mcp_id = true := h
  refine ⟨?_, ?_, rfl, rfl, rfl⟩ <;>
    simp [serverMcpEnabled, serverSetMcpStatus, h']

theorem mcp_disable_enable_roundtrip_witness :
    serverMcpEnabled
        (serverSetMcpStatus (serverSetMcpStatus (fun _ => true) "mcp1" false)
          "mcp1" true) "mcp1" = true :=
  (mcp_disable_enable_roundtrip (fun _ => true) "mcp1" rfl).1

/-- C9: optional body fields are included by truthiness, not by presence:
`create_task` with `message=""` builds the same request as with no message;
`create_task` with `wait_for_completion=False` omits that key; `send_message`
with `images=[]` builds the same request as with no images and its body
carries no `images` key; `start_new_task` with `message=""` builds the same
request as with no message. -/
theorem optional_fields_by_truthiness :
    (∀ mode profile wfc,
        create_task (some "") mode profile wfc =
          create_task none mode profile wfc) ∧
      (∀ message mode profile,
        "wait_for_completion" ∉
          payloadKeys (create_task message mode profile false).body) ∧
      (∀ message, send_message message (some []) = send_message message none) ∧
      (∀ message, "images" ∉ payloadKeys (send_message message none).body) ∧
      start_new_task (some "") = start_new_task none := by
  refine ⟨fun _ _ _ => rfl, ?_, fun _ => rfl, ?_, rfl⟩
  · intro message mode profile hmem
    have hb : (create_task message mode profile false).body =
        addTruthyStr (addTruthyStr (addTruthyStr [] "message" message)
          "mode" mode) "profile" profile := by
      simp [create_task, addTruthyBool]
    rw [hb] at hmem
    rcases mem_payloadKeys_addTruthyStr _ _ _ _ hmem with hmem | h
    · rcases mem_payloadKeys_addTruthyStr _ _ _ _ hmem with hmem | h
      · rcases mem_payloadKeys_addTruthyStr _ _ _ _ hmem with hmem | h
        · simp [payloadKeys] at hmem
        · exact absurd h (by decide)
      · exact absurd h (by decide)
    · exact absurd h (by decide)
  · intro message
    simp [send_message, addTruthyList, truthyList, payloadKeys]

/-- C10: the profile-selection expression of `mode_and_profile.py` yields no
profile (so `next` raises `StopIteration`) when the list has more than one
entry but every listed name equals the current one; under the precondition
that some listed name differs, it yields the first differing name in list
order, and the script then switches via POST `/profiles/switch` with that
name in the body. -/
theorem profile_selection_behavior (profiles : List Profile)
    (currentName : String) :
    (1 < profiles.length → (∀ p ∈ profiles, p.name = currentName) →
        selectNewProfile profiles currentName = none) ∧
      selectNewProfile profiles currentName =
        firstDifferentName profiles currentName ∧
      (∀ nm, selectNewProfile profiles currentName = some nm →
        switch_profile nm =
          { method := Method.post, path := "/profiles/switch",
            body := [("name", Json.str nm)] }) := by
  refine ⟨?_, selectNewProfile_eq_firstDifferentName profiles currentName,
    fun nm _ => rfl⟩
  intro _ hall
  unfold selectNewProfile
  rw [List.find?_eq_none.mpr]
  · rfl
  · intro p hp
    simp [hall p hp]

/-- A two-profile list in which both entries carry the current name. -/
def twinProfiles : List Profile := [⟨"default"⟩, ⟨"default"⟩]

theorem profile_selection_behavior_witness :
    selectNewProfile twinProfiles "default" = none :=
  (profile_selection_behavior twinProfiles "default").1 (by decide)
    (by decide)

theorem optional_fields_by_truthiness_witness :
    create_task (some "") none none false = create_task none none none false :=
  optional_fields_by_truthiness.1 none none false
